import Mathlib

/-!
# Verification of the API-DIGIMON server-rendered web front-end

Shallow embedding of the Go sources:

* `src/services/digimon.service.go` — the Transport Client: data records
  decoded from the upstream JSON, the query-string construction of
  `GetAllDigimons`, and the uniform `(result, statusCode, error)` contract of
  the fetch helpers.
* `src/controllers/digimon.controllers.go` — the Request Handlers: input
  parsing (`strconv.Atoi`, `strings.TrimSpace`, form values), the derived
  `DigimonListOptions`, the error-mapping rule, and the rendered view-models.

Modelling conventions:

* The effect of one outbound HTTP round trip is externalised as an
  `HttpOutcome` value: either `http.NewRequestWithContext` fails, or
  `httpClient.Do` fails at the transport level, or a response arrives with a
  status code and a body that the JSON decoder either accepts or rejects.
  Go's `error` values are modelled as `Option String` (the error text;
  `none` = `nil`).
* Go machine integers (`int`) are modelled as `Int`; HTTP status codes,
  which are non-negative, as `Nat`.
* `url.Values` is a multimap rendered sorted by `Encode`; every claim here
  is about which keys/pairs are present, so the query is modelled as the
  association list of `q.Add` calls in program order.
* A handler is a function from its request inputs and the upstream
  `HttpOutcome` to the pair (list of upstream calls actually issued,
  response).  A Go nil-pointer dereference (`err.Error()` or `data.Content`
  on a nil pointer) is modelled as the explicit response
  `HandlerResponse.panicNilDeref`.
* `context.Context` values never influence the pure result once the outcome
  is externalised; they are kept as an explicit `GoContext` parameter to
  mirror the Go signatures.
-/

set_option linter.dupNamespace false
set_option linter.unusedVariables false

namespace services

/-- `Image` from digimon.service.go (json: href, transparent). -/
structure Image where
  Href : String
  Transparent : String
deriving Repr, DecidableEq

/-- `DigimonType` from digimon.service.go (Go field `Type`, JSON key "type";
`Type` is a Lean keyword, hence `Typ`). -/
structure DigimonType where
  ID : Int
  Typ : String
  Image : String
deriving Repr, DecidableEq

/-- `DigimonAttribute` from digimon.service.go. -/
structure DigimonAttribute where
  ID : Int
  Attribute : String
  Image : String
deriving Repr, DecidableEq

/-- `DigimonLevel` from digimon.service.go. -/
structure DigimonLevel where
  ID : Int
  Level : String
deriving Repr, DecidableEq

/-- `DigimonField` from digimon.service.go. -/
structure DigimonField where
  ID : Int
  Field : String
  Image : String
deriving Repr, DecidableEq

/-- `DigimonSkill` from digimon.service.go. -/
structure DigimonSkill where
  ID : Int
  Skill : String
  Description : String
deriving Repr, DecidableEq

/-- `Description` from digimon.service.go. -/
structure Description where
  Origin : String
  Language : String
  Description : String
deriving Repr, DecidableEq

/-- `Digimon` from digimon.service.go — one complete creature record. -/
structure Digimon where
  ID : Int
  Name : String
  XAntibody : Bool
  Images : List Image
  Levels : List DigimonLevel
  Types : List DigimonType
  Attributes : List DigimonAttribute
  Fields : List DigimonField
  Skills : List DigimonSkill
  Descriptions : List Description
deriving Repr, DecidableEq

/-- `DigimonSummary` from digimon.service.go — listing projection. -/
structure DigimonSummary where
  ID : Int
  Name : String
  Href : String
  Image : String
deriving Repr, DecidableEq

/-- `Sort` from digimon.service.go (the Go name `Sort` is a Lean keyword,
hence `SortInfo`). -/
structure SortInfo where
  Sorted : Bool
  Unsorted : Bool
  Empty : Bool
deriving Repr, DecidableEq

/-- `Pageable` from digimon.service.go (field `sort` named by its JSON key;
`Sort` is a Lean keyword). -/
structure Pageable where
  sort : SortInfo
  PageNumber : Int
  PageSize : Int
  Offset : Int
  Paged : Bool
  Unpaged : Bool
deriving Repr, DecidableEq

/-- `DigimonListResponse` from digimon.service.go — the paginated list page. -/
structure DigimonListResponse where
  Content : List DigimonSummary
  Pageable : Pageable
  TotalElements : Int
  TotalPages : Int
  Last : Bool
  First : Bool
  Size : Int
  Number : Int
  NumberOfElements : Int
  Empty : Bool
deriving Repr, DecidableEq

/-- `Attribute` from digimon.service.go — one attribute with its creatures. -/
structure Attribute where
  ID : Int
  Attribute : String
  Digimons : List DigimonSummary
deriving Repr, DecidableEq

/-- `Level` from digimon.service.go — one level with its creatures. -/
structure Level where
  ID : Int
  Level : String
  Digimons : List DigimonSummary
deriving Repr, DecidableEq

/-- `DigimonListOptions` from digimon.service.go.  Field defaults are the Go
zero values, so Lean structure literals behave like Go struct literals. -/
structure DigimonListOptions where
  Name : String := ""
  Exact : Bool := false
  Attribute : String := ""
  XAntibody : Option Bool := none
  Level : String := ""
  Page : Int := 0
  PageSize : Int := 0
deriving Repr, DecidableEq

/-- A `context.Context` value as the handlers build them: `context.Background()`
or `context.WithTimeout(parent, d)` (duration in seconds). -/
inductive GoContext where
  | background
  | withTimeout (parent : GoContext) (seconds : Nat)
deriving Repr, DecidableEq

/-- What the JSON decoder does with a received 200 body: decode a value or
fail with an error text. -/
inductive DecodeResult (α : Type) where
  | ok (value : α)
  | fail (msg : String)
deriving Repr, DecidableEq

/-- The externalised effect of one outbound call attempt:
`http.NewRequestWithContext` fails (only possible when a caller-supplied
name makes the interpolated URL unparsable), or `httpClient.Do` fails at the
transport level (DNS, refused connection, deadline), or a response arrives
with a status code and a body. -/
inductive HttpOutcome (α : Type) where
  | newRequestError (msg : String)
  | transportError (msg : String)
  | response (statusCode : Nat) (body : DecodeResult α)
deriving Repr, DecidableEq

/-- The Go return triple `(*T, int, error)`: `Option` models the pointer,
`Option String` models the `error` (text of a non-nil error). -/
abbrev FetchResult (α : Type) := Option α × Nat × Option String

/-- `digimonAPIBaseURL` constant from digimon.service.go. -/
def digimonAPIBaseURL : String := "https://digi-api.com/api/v1"

/-- `fetchDigimon` from digimon.service.go: expects status 200; any other
status is returned with an "unexpected code" error; decode failure and
transport failure map to 500.  `ctx` and `url` do not influence the pure
result once the round-trip effect is the `out` parameter. -/
def fetchDigimon (ctx : GoContext) (url : String) (out : HttpOutcome Digimon) :
    FetchResult Digimon :=
  match out with
  | .newRequestError msg => (none, 500, some ("erreur création requête: " ++ msg))
  | .transportError msg => (none, 500, some ("erreur requête HTTP: " ++ msg))
  | .response status body =>
    if status ≠ 200 then
      (none, status, some ("code HTTP inattendu: " ++ toString status))
    else
      match body with
      | .fail msg => (none, 500, some ("erreur décodage JSON: " ++ msg))
      | .ok v => (some v, status, none)

/-- `GetDigimonByID` from digimon.service.go: `/digimon/{id}`. -/
def GetDigimonByID (ctx : GoContext) (id : Int) (out : HttpOutcome Digimon) :
    FetchResult Digimon :=
  fetchDigimon ctx (digimonAPIBaseURL ++ "/digimon/" ++ toString id) out

/-- `GetDigimonByName` from digimon.service.go: `/digimon/{name}`. -/
def GetDigimonByName (ctx : GoContext) (name : String) (out : HttpOutcome Digimon) :
    FetchResult Digimon :=
  fetchDigimon ctx (digimonAPIBaseURL ++ "/digimon/" ++ name) out

/-- The query-building block of `GetAllDigimons` (digimon.service.go lines
194–224): one `q.Add(key, value)` per non-default field, in program order. -/
def buildListQuery (opts : DigimonListOptions) : List (String × String) :=
  (if opts.Name ≠ "" then [("name", opts.Name)] else []) ++
  (if opts.Exact then [("exact", "true")] else []) ++
  (if opts.Attribute ≠ "" then [("attribute", opts.Attribute)] else []) ++
  (match opts.XAntibody with
   | some true => [("xAntibody", "true")]
   | some false => [("xAntibody", "false")]
   | none => []) ++
  (if opts.Level ≠ "" then [("level", opts.Level)] else []) ++
  (if opts.Page > 0 then [("page", toString opts.Page)] else []) ++
  (if opts.PageSize > 0 then [("pageSize", toString opts.PageSize)] else [])

/-- The raw query attached to the request: empty when the options pointer is
nil (the `if opts != nil` guard). -/
def listRawQuery (opts : Option DigimonListOptions) : List (String × String) :=
  match opts with
  | none => []
  | some o => buildListQuery o

/-- `GetAllDigimons` from digimon.service.go.  The first component records the
query actually attached to an issued request (`none` when request creation
failed, so nothing went out); the second is the Go return triple with the
same status/decode/transport contract as `fetchDigimon`. -/
def GetAllDigimons (ctx : GoContext) (opts : Option DigimonListOptions)
    (out : HttpOutcome DigimonListResponse) :
    Option (List (String × String)) × FetchResult DigimonListResponse :=
  match out with
  | .newRequestError msg =>
    (none, (none, 500, some ("erreur création requête: " ++ msg)))
  | .transportError msg =>
    (some (listRawQuery opts), (none, 500, some ("erreur requête HTTP: " ++ msg)))
  | .response status body =>
    (some (listRawQuery opts),
     if status ≠ 200 then
       (none, status, some ("code HTTP inattendu: " ++ toString status))
     else
       match body with
       | .fail msg => (none, 500, some ("erreur décodage JSON: " ++ msg))
       | .ok v => (some v, status, none))

/-- `fetchAttribute` from digimon.service.go — same contract as `fetchDigimon`
(the Go code duplicates the body). -/
def fetchAttribute (ctx : GoContext) (url : String) (out : HttpOutcome Attribute) :
    FetchResult Attribute :=
  match out with
  | .newRequestError msg => (none, 500, some ("erreur création requête: " ++ msg))
  | .transportError msg => (none, 500, some ("erreur requête HTTP: " ++ msg))
  | .response status body =>
    if status ≠ 200 then
      (none, status, some ("code HTTP inattendu: " ++ toString status))
    else
      match body with
      | .fail msg => (none, 500, some ("erreur décodage JSON: " ++ msg))
      | .ok v => (some v, status, none)

/-- `GetAttributeByID` from digimon.service.go: `/attribute/{id}`. -/
def GetAttributeByID (ctx : GoContext) (id : Int) (out : HttpOutcome Attribute) :
    FetchResult Attribute :=
  fetchAttribute ctx (digimonAPIBaseURL ++ "/attribute/" ++ toString id) out

/-- `GetAttributeByName` from digimon.service.go: `/attribute/{name}`. -/
def GetAttributeByName (ctx : GoContext) (name : String) (out : HttpOutcome Attribute) :
    FetchResult Attribute :=
  fetchAttribute ctx (digimonAPIBaseURL ++ "/attribute/" ++ name) out

/-- `fetchLevel` from digimon.service.go — same contract again. -/
def fetchLevel (ctx : GoContext) (url : String) (out : HttpOutcome Level) :
    FetchResult Level :=
  match out with
  | .newRequestError msg => (none, 500, some ("erreur création requête: " ++ msg))
  | .transportError msg => (none, 500, some ("erreur requête HTTP: " ++ msg))
  | .response status body =>
    if status ≠ 200 then
      (none, status, some ("code HTTP inattendu: " ++ toString status))
    else
      match body with
      | .fail msg => (none, 500, some ("erreur décodage JSON: " ++ msg))
      | .ok v => (some v, status, none)

/-- `GetLevelByID` from digimon.service.go: `/level/{id}`. -/
def GetLevelByID (ctx : GoContext) (id : Int) (out : HttpOutcome Level) :
    FetchResult Level :=
  fetchLevel ctx (digimonAPIBaseURL ++ "/level/" ++ toString id) out

/-- `GetLevelByName` from digimon.service.go: `/level/{name}`. -/
def GetLevelByName (ctx : GoContext) (name : String) (out : HttpOutcome Level) :
    FetchResult Level :=
  fetchLevel ctx (digimonAPIBaseURL ++ "/level/" ++ name) out

/-- `GetDigimonByIDSimple` from digimon.service.go: delegates with
`context.Background()`. -/
def GetDigimonByIDSimple (id : Int) (out : HttpOutcome Digimon) :
    FetchResult Digimon :=
  GetDigimonByID GoContext.background id out

/-- `GetDigimonByNameSimple` from digimon.service.go. -/
def GetDigimonByNameSimple (name : String) (out : HttpOutcome Digimon) :
    FetchResult Digimon :=
  GetDigimonByName GoContext.background name out

/-- `GetAllDigimonsSimple` from digimon.service.go. -/
def GetAllDigimonsSimple (opts : Option DigimonListOptions)
    (out : HttpOutcome DigimonListResponse) :
    Option (List (String × String)) × FetchResult DigimonListResponse :=
  GetAllDigimons GoContext.background opts out

end services

namespace controllers

open services

/-- Go `unicode.IsSpace`: the White_Space code points ('\t', '\n', vertical
tab, form feed, '\r', ' ', NEL, NBSP, plus the Unicode space separators). -/
def goIsSpace (c : Char) : Bool :=
  let n := c.toNat
  n == 9 || n == 10 || n == 11 || n == 12 || n == 13 || n == 32 ||
  n == 0x85 || n == 0xA0 || n == 0x1680 ||
  (decide (0x2000 ≤ n) && decide (n ≤ 0x200A)) ||
  n == 0x2028 || n == 0x2029 || n == 0x202F || n == 0x205F || n == 0x3000

/-- Go `strings.TrimSpace`: drop leading and trailing White_Space. -/
def goTrimSpace (s : String) : String :=
  String.mk (((s.toList.dropWhile goIsSpace).reverse.dropWhile goIsSpace).reverse)

/-- Digit run of `strconv.Atoi` after the optional sign: all characters must
be decimal digits and there must be at least one; the value must fit a 64-bit
`int`, else Atoi reports `ErrRange` (modelled as `none`). -/
def goAtoiDigits (digits : List Char) (neg : Bool) : Option Int :=
  if digits = [] ∨ ¬ digits.all Char.isDigit then none
  else
    let m : Nat := digits.foldl (fun a c => a * 10 + (c.toNat - 48)) 0
    let v : Int := if neg then -(m : Int) else (m : Int)
    if -(2 ^ 63) ≤ v ∧ v < 2 ^ 63 then some v else none

/-- Go `strconv.Atoi`: optional leading '+' or '-', then decimal digits;
`none` models a non-nil error (empty, stray characters, out of range). -/
def goAtoi (s : String) : Option Int :=
  match s.toList with
  | [] => none
  | '+' :: rest => goAtoiDigits rest false
  | '-' :: rest => goAtoiDigits rest true
  | l => goAtoiDigits l false

/-- `createContext` from digimon.controllers.go:
`context.WithTimeout(context.Background(), 10*time.Second)`. -/
def createContext : GoContext := GoContext.withTimeout GoContext.background 10

/-- What a handler writes back: `http.Error(w, message, status)`, an
`http.Redirect`, a `helper.RenderTemplate(w, r, template, data)`, or a Go
runtime panic from dereferencing a nil pointer (`err.Error()` or a field of
a nil result). -/
inductive HandlerResponse (α : Type) where
  | httpError (status : Nat) (message : String)
  | redirect (status : Nat) (location : String)
  | render (template : String) (data : α)
  | panicNilDeref
deriving Repr, DecidableEq

/-- View-model of `DisplayListDigimonsWithPagination` (the Go
`map[string]interface{}` keys become fields). -/
structure PaginatedView where
  Digimons : List DigimonSummary
  CurrentPage : Int
  TotalPages : Int
  TotalDigimons : Int
  HasNext : Bool
  HasPrevious : Bool
deriving Repr, DecidableEq

/-- View-model of `DisplaySearch`. -/
structure SearchView where
  Digimons : List DigimonSummary
  Query : String
  Total : Int
deriving Repr, DecidableEq

/-- View-model of `DisplaySearchAdvanced`. -/
structure SearchAdvancedView where
  Digimons : List DigimonSummary
  Query : String
  Exact : Bool
  Total : Int
deriving Repr, DecidableEq

/-- View-model of `DisplayFilter`. -/
structure FilterView where
  Digimons : List DigimonSummary
  Level : String
  Attribute : String
  XAntibody : Bool
  Total : Int
  TotalPages : Int
deriving Repr, DecidableEq

/-- View-model of `DisplayFilterAdvanced`. -/
structure FilterAdvancedView where
  Digimons : List DigimonSummary
  Levels : List String
  Attributes : List String
  XAntibody : Bool
  Total : Int
deriving Repr, DecidableEq

/-- View-model of `DisplayDigimonsByAttribute`. -/
structure ByAttributeView where
  Attribute : String
  Digimons : List DigimonSummary
  Total : Int
deriving Repr, DecidableEq

/-- View-model of `DisplayDigimonsByLevel`. -/
structure ByLevelView where
  Level : String
  Digimons : List DigimonSummary
  Total : Int
deriving Repr, DecidableEq

/-- `DisplayListDigimons` from digimon.controllers.go: fixed options
`{PageSize: 100}`; on error (`status != 200 || err != nil`) writes
`http.Error` with the upstream status and a message built from
`err.Error()`; on success renders `data.Content` (a nil-pointer field access
if `data` were nil).  First component: the options of the one upstream call
issued. -/
def DisplayListDigimons (out : HttpOutcome DigimonListResponse) :
    List (Option DigimonListOptions) × HandlerResponse (List DigimonSummary) :=
  let opts : Option DigimonListOptions := some { PageSize := 100 }
  let r := (GetAllDigimons createContext opts out).2
  ([opts],
   match r with
   | (data, status, err) =>
     if status ≠ 200 ∨ err ≠ none then
       match err with
       | some e =>
         .httpError status
           ("Erreur service - code: " ++ toString status ++ "\nmessage: " ++ e)
       | none => .panicNilDeref
     else
       match data with
       | some d => .render "list_digimon" d.Content
       | none => .panicNilDeref)

/-- The page-number parsing block of `DisplayListDigimonsWithPagination`
(digimon.controllers.go lines 57–63): start at 0, overwrite only when the
raw parameter is non-empty, parses, and is strictly positive. -/
def parsePageParam (pageStr : String) : Int :=
  if pageStr ≠ "" then
    match goAtoi pageStr with
    | some p => if p > 0 then p else 0
    | none => 0
  else 0

/-- `DisplayListDigimonsWithPagination` from digimon.controllers.go: options
`{Page: page, PageSize: 20}` with `page` parsed from the URL query
(`r.URL.Query().Get("page")` returns "" when absent). -/
def DisplayListDigimonsWithPagination (pageStr : String)
    (out : HttpOutcome DigimonListResponse) :
    List (Option DigimonListOptions) × HandlerResponse PaginatedView :=
  let page := parsePageParam pageStr
  let opts : Option DigimonListOptions := some { Page := page, PageSize := 20 }
  let r := (GetAllDigimons createContext opts out).2
  ([opts],
   match r with
   | (data, status, err) =>
     if status ≠ 200 ∨ err ≠ none then
       match err with
       | some e =>
         .httpError status
           ("Erreur service - code: " ++ toString status ++ "\nmessage: " ++ e)
       | none => .panicNilDeref
     else
       match data with
       | some d =>
         .render "list_digimon_paginated"
           { Digimons := d.Content
             CurrentPage := page
             TotalPages := d.TotalPages
             TotalDigimons := d.TotalElements
             HasNext := !d.Last
             HasPrevious := !d.First }
       | none => .panicNilDeref)

/-- `DisplaySearch` from digimon.controllers.go: trims the "query" form
value; empty → `http.Redirect(w, r, "/digimons", http.StatusSeeOther)` (303)
with no upstream call; otherwise calls the service with
`{Name: query, PageSize: 50}`. -/
def DisplaySearch (queryRaw : String) (out : HttpOutcome DigimonListResponse) :
    List (Option DigimonListOptions) × HandlerResponse SearchView :=
  let query := goTrimSpace queryRaw
  if query = "" then ([], .redirect 303 "/digimons")
  else
    let opts : Option DigimonListOptions := some { Name := query, PageSize := 50 }
    let r := (GetAllDigimons createContext opts out).2
    ([opts],
     match r with
     | (data, status, err) =>
       if status ≠ 200 ∨ err ≠ none then
         match err with
         | some e =>
           .httpError status
             ("Erreur service - code: " ++ toString status ++ "\nmessage: " ++ e)
         | none => .panicNilDeref
       else
         match data with
         | some d =>
           .render "search_digimon"
             { Digimons := d.Content, Query := query, Total := d.TotalElements }
         | none => .panicNilDeref)

/-- `DisplaySearchAdvanced` from digimon.controllers.go: the `exact` flag is
`r.FormValue("exact") == "true" || r.FormValue("exact") == "on"`. -/
def DisplaySearchAdvanced (queryRaw exactRaw : String)
    (out : HttpOutcome DigimonListResponse) :
    List (Option DigimonListOptions) × HandlerResponse SearchAdvancedView :=
  let query := goTrimSpace queryRaw
  let exact : Bool := exactRaw == "true" || exactRaw == "on"
  if query = "" then ([], .redirect 303 "/digimons")
  else
    let opts : Option DigimonListOptions :=
      some { Name := query, Exact := exact, PageSize := 50 }
    let r := (GetAllDigimons createContext opts out).2
    ([opts],
     match r with
     | (data, status, err) =>
       if status ≠ 200 ∨ err ≠ none then
         match err with
         | some e =>
           .httpError status
             ("Erreur service - code: " ++ toString status ++ "\nmessage: " ++ e)
         | none => .panicNilDeref
       else
         match data with
         | some d =>
           .render "search_digimon"
             { Digimons := d.Content, Query := query, Exact := exact
               Total := d.TotalElements }
         | none => .panicNilDeref)

/-- `DisplayFilter` from digimon.controllers.go: `r.ParseForm()` failure →
400; otherwise builds `{PageSize: 100}` and overwrites `Level`, `Attribute`,
`XAntibody` only for supplied fields; the error branch calls
`log.Printf(... dataError.Error())` before `http.Error` (nil deref when the
error is nil). -/
def DisplayFilter (parseFormOk : Bool) (levelRaw attributeRaw xAntibodyStr : String)
    (out : HttpOutcome DigimonListResponse) :
    List (Option DigimonListOptions) × HandlerResponse FilterView :=
  if !parseFormOk then ([], .httpError 400 "Erreur parsing formulaire")
  else
    let level := goTrimSpace levelRaw
    let attributeStr := goTrimSpace attributeRaw
    let opts0 : DigimonListOptions := { PageSize := 100 }
    let opts1 := if level ≠ "" then { opts0 with Level := level } else opts0
    let opts2 :=
      if attributeStr ≠ "" then { opts1 with Attribute := attributeStr } else opts1
    let opts3 :=
      if xAntibodyStr = "true" ∨ xAntibodyStr = "on" then
        { opts2 with XAntibody := some true }
      else opts2
    let r := (GetAllDigimons createContext (some opts3) out).2
    ([some opts3],
     match r with
     | (data, status, err) =>
       if status ≠ 200 ∨ err ≠ none then
         match err with
         | some e =>
           .httpError status
             ("Erreur service - code: " ++ toString status ++ "\nmessage: " ++ e)
         | none => .panicNilDeref
       else
         match data with
         | some d =>
           .render "filter_digimons"
             { Digimons := d.Content, Level := level, Attribute := attributeStr
               XAntibody := (xAntibodyStr == "true" || xAntibodyStr == "on")
               Total := d.TotalElements, TotalPages := d.TotalPages }
         | none => .panicNilDeref)

/-- The local filtering loop of `DisplayFilterAdvanced`
(digimon.controllers.go lines 293–306): one append per fetched record, but
only when no filter criterion was supplied at all. -/
def filterAdvancedLoop (levels attributes : List String) (xAntibodyStr : String)
    (content : List DigimonSummary) : List DigimonSummary :=
  content.foldl
    (fun validDigimons digimon =>
      if levels = [] ∧ attributes = [] ∧ xAntibodyStr = "" then
        validDigimons ++ [digimon]
      else validDigimons)
    []

/-- `DisplayFilterAdvanced` from digimon.controllers.go: fetches with
`{PageSize: 500}` before reading the form fields, then applies the local
loop; view-model carries the filtered list and its length as `Total`. -/
def DisplayFilterAdvanced (parseFormOk : Bool) (levels attributes : List String)
    (xAntibodyStr : String) (out : HttpOutcome DigimonListResponse) :
    List (Option DigimonListOptions) × HandlerResponse FilterAdvancedView :=
  if !parseFormOk then ([], .httpError 400 "Erreur parsing formulaire")
  else
    let opts : Option DigimonListOptions := some { PageSize := 500 }
    let r := (GetAllDigimons createContext opts out).2
    ([opts],
     match r with
     | (data, status, err) =>
       if status ≠ 200 ∨ err ≠ none then
         match err with
         | some e =>
           .httpError status
             ("Erreur service - code: " ++ toString status ++ "\nmessage: " ++ e)
         | none => .panicNilDeref
       else
         match data with
         | some d =>
           let validDigimons := filterAdvancedLoop levels attributes xAntibodyStr d.Content
           .render "filter_digimons_advanced"
             { Digimons := validDigimons, Levels := levels, Attributes := attributes
               XAntibody := (xAntibodyStr == "true" || xAntibodyStr == "on")
               Total := validDigimons.length }
         | none => .panicNilDeref)

/-- `DisplayDigimonDetails` from digimon.controllers.go: missing ("") id →
400 "ID manquant"; `strconv.Atoi` failure → 400 "ID invalide"; otherwise
fetches by the parsed id (first component records it); upstream 404 →
404 "Digimon non trouvé"; other failures → upstream status with the generic
message; success passes the pointer to the template untouched. -/
def DisplayDigimonDetails (idStr : String) (out : HttpOutcome Digimon) :
    List Int × HandlerResponse (Option Digimon) :=
  if idStr = "" then ([], .httpError 400 "ID manquant")
  else
    match goAtoi idStr with
    | none => ([], .httpError 400 "ID invalide")
    | some id =>
      let r := GetDigimonByID createContext id out
      ([id],
       match r with
       | (digimon, status, err) =>
         if status ≠ 200 ∨ err ≠ none then
           if status = 404 then .httpError 404 "Digimon non trouvé"
           else
             match err with
             | some e =>
               .httpError status
                 ("Erreur service - code: " ++ toString status ++ "\nmessage: " ++ e)
             | none => .panicNilDeref
         else .render "digimon_details" digimon)

/-- `DisplayDigimonDetailsByName` from digimon.controllers.go: missing ("")
name → 400 "Nom manquant"; same upstream error mapping as the by-id
handler. -/
def DisplayDigimonDetailsByName (name : String) (out : HttpOutcome Digimon) :
    List String × HandlerResponse (Option Digimon) :=
  if name = "" then ([], .httpError 400 "Nom manquant")
  else
    let r := GetDigimonByName createContext name out
    ([name],
     match r with
     | (digimon, status, err) =>
       if status ≠ 200 ∨ err ≠ none then
         if status = 404 then .httpError 404 "Digimon non trouvé"
         else
           match err with
           | some e =>
             .httpError status
               ("Erreur service - code: " ++ toString status ++ "\nmessage: " ++ e)
           | none => .panicNilDeref
       else .render "digimon_details" digimon)

/-- `DisplayDigimonsByAttribute` from digimon.controllers.go: missing ("")
attribute name → 400 "Attribut manquant"; no 404 special case. -/
def DisplayDigimonsByAttribute (attributeName : String)
    (out : HttpOutcome Attribute) :
    List String × HandlerResponse ByAttributeView :=
  if attributeName = "" then ([], .httpError 400 "Attribut manquant")
  else
    let r := GetAttributeByName createContext attributeName out
    ([attributeName],
     match r with
     | (attributePtr, status, err) =>
       if status ≠ 200 ∨ err ≠ none then
         match err with
         | some e =>
           .httpError status
             ("Erreur service - code: " ++ toString status ++ "\nmessage: " ++ e)
         | none => .panicNilDeref
       else
         match attributePtr with
         | some a =>
           .render "digimons_by_attribute"
             { Attribute := a.Attribute, Digimons := a.Digimons
               Total := a.Digimons.length }
         | none => .panicNilDeref)

/-- `DisplayDigimonsByLevel` from digimon.controllers.go: missing ("") level
name → 400 "Niveau manquant". -/
def DisplayDigimonsByLevel (levelName : String) (out : HttpOutcome Level) :
    List String × HandlerResponse ByLevelView :=
  if levelName = "" then ([], .httpError 400 "Niveau manquant")
  else
    let r := GetLevelByName createContext levelName out
    ([levelName],
     match r with
     | (level, status, err) =>
       if status ≠ 200 ∨ err ≠ none then
         match err with
         | some e =>
           .httpError status
             ("Erreur service - code: " ++ toString status ++ "\nmessage: " ++ e)
         | none => .panicNilDeref
       else
         match level with
         | some l =>
           .render "digimons_by_level"
             { Level := l.Level, Digimons := l.Digimons
               Total := l.Digimons.length }
         | none => .panicNilDeref)

end controllers

open services controllers

/-- A concrete listing entry, for witness instantiations. -/
def demoSummary : DigimonSummary :=
  { ID := 1, Name := "Agumon", Href := "", Image := "" }

/-- A concrete decoded list page, for witness instantiations. -/
def demoList : DigimonListResponse :=
  { Content := [demoSummary]
    Pageable :=
      { sort := { Sorted := false, Unsorted := true, Empty := true }
        PageNumber := 0, PageSize := 5, Offset := 0, Paged := true
        Unpaged := false }
    TotalElements := 1, TotalPages := 1, Last := true, First := true
    Size := 5, Number := 0, NumberOfElements := 1, Empty := false }

/-- A concrete decoded creature, for witness instantiations. -/
def demoDigimon : Digimon :=
  { ID := 1, Name := "Agumon", XAntibody := false, Images := [], Levels := []
    Types := [], Attributes := [], Fields := [], Skills := []
    Descriptions := [] }

/-- The status code the Transport Client reports for an outcome: 500 for
request-creation, transport and decode failures, the received status when it
is not 200, and 200 only for a decoded 200 response.  Every fetch function's
status component equals this (proved below). -/
def reportedStatus {α : Type} (out : HttpOutcome α) : Nat :=
  match out with
  | .newRequestError _ => 500
  | .transportError _ => 500
  | .response s body =>
    if s ≠ 200 then s
    else
      match body with
      | .fail _ => 500
      | .ok _ => 200

/-! ## Theorems settling the claims -/

/-- **C10.** The context-free wrapper functions are extensionally equal to
their context-taking counterparts applied to `context.Background()`:
`GetDigimonByIDSimple id = GetDigimonByID background id`,
`GetDigimonByNameSimple name = GetDigimonByName background name`, and
`GetAllDigimonsSimple opts = GetAllDigimons background opts`, for every
input and every upstream outcome. -/
theorem simple_wrappers_equal_background :
    ∀ (id : Int) (name : String) (opts : Option DigimonListOptions)
      (outD outN : HttpOutcome Digimon) (outL : HttpOutcome DigimonListResponse),
      GetDigimonByIDSimple id outD = GetDigimonByID GoContext.background id outD ∧
      GetDigimonByNameSimple name outN =
        GetDigimonByName GoContext.background name outN ∧
      GetAllDigimonsSimple opts outL =
        GetAllDigimons GoContext.background opts outL :=
  fun _ _ _ _ _ _ => ⟨rfl, rfl, rfl⟩

/-- Mapping a function over a one-element conditional list. -/
lemma map_ite_singleton {α β : Type} (f : α → β) (c : Prop) [Decidable c]
    (x : α) : (if c then [x] else []).map f = if c then [f x] else [] := by
  split <;> rfl

/-- Membership in a one-element conditional list. -/
lemma mem_ite_singleton {α : Type} (c : Prop) [Decidable c] (x y : α) :
    y ∈ (if c then [x] else []) ↔ y = x ∧ c := by
  split <;> simp_all

/-- Characterisation of the keys produced by `buildListQuery`. -/
lemma mem_map_fst_buildListQuery (o : DigimonListOptions) (k : String) :
    k ∈ (buildListQuery o).map Prod.fst ↔
      (k = "name" ∧ o.Name ≠ "") ∨ (k = "exact" ∧ o.Exact = true) ∨
      (k = "attribute" ∧ o.Attribute ≠ "") ∨
      (k = "xAntibody" ∧ o.XAntibody ≠ none) ∨
      (k = "level" ∧ o.Level ≠ "") ∨ (k = "page" ∧ o.Page > 0) ∨
      (k = "pageSize" ∧ o.PageSize > 0) := by
  obtain ⟨n, e, a, x, l, p, ps⟩ := o
  simp only [buildListQuery, List.map_append, List.mem_append, map_ite_singleton,
    mem_ite_singleton]
  rcases x with _ | b
  · simp [or_assoc]
  · cases b <;> simp [or_assoc]

/-- Characterisation of the key/value pairs produced by `buildListQuery`. -/
lemma mem_buildListQuery (o : DigimonListOptions) (kv : String × String) :
    kv ∈ buildListQuery o ↔
      (kv = ("name", o.Name) ∧ o.Name ≠ "") ∨
      (kv = ("exact", "true") ∧ o.Exact = true) ∨
      (kv = ("attribute", o.Attribute) ∧ o.Attribute ≠ "") ∨
      (kv = ("xAntibody", "true") ∧ o.XAntibody = some true) ∨
      (kv = ("xAntibody", "false") ∧ o.XAntibody = some false) ∨
      (kv = ("level", o.Level) ∧ o.Level ≠ "") ∨
      (kv = ("page", toString o.Page) ∧ o.Page > 0) ∨
      (kv = ("pageSize", toString o.PageSize) ∧ o.PageSize > 0) := by
  obtain ⟨n, e, a, x, l, p, ps⟩ := o
  simp only [buildListQuery, List.mem_append, mem_ite_singleton]
  rcases x with _ | b
  · simp [or_assoc]
  · cases b <;> simp [or_assoc]

/-- The first component of `GetAllDigimons` with non-nil options is either
`none` (request creation failed, nothing sent) or the built query. -/
lemma getAllDigimons_sent_query (ctx : GoContext) (opts : DigimonListOptions)
    (out : HttpOutcome DigimonListResponse) (q : List (String × String))
    (hq : (GetAllDigimons ctx (some opts) out).1 = some q) :
    q = buildListQuery opts := by
  cases out with
  | newRequestError m => simp [GetAllDigimons] at hq
  | transportError m =>
    simp [GetAllDigimons, listRawQuery] at hq
    exact hq.symm
  | response s b =>
    simp [GetAllDigimons, listRawQuery] at hq
    exact hq.symm

/-- **C1.** Whenever `GetAllDigimons` attaches a query `q` to an issued
request built from options `opts`, `q` contains key "name" iff `Name` is
non-empty, the pair `exact=true` iff `Exact` is set, key "attribute" iff
`Attribute` is non-empty, key "xAntibody" (with value "true" resp. "false"
matching the pointee) iff the `XAntibody` pointer is non-nil, key "level"
iff `Level` is non-empty, key "page" iff `Page > 0`, key "pageSize" iff
`PageSize > 0`, and no key outside those seven. -/
theorem getAllDigimons_query_param_presence
    (ctx : GoContext) (opts : DigimonListOptions)
    (out : HttpOutcome DigimonListResponse) (q : List (String × String))
    (hq : (GetAllDigimons ctx (some opts) out).1 = some q) :
    ("name" ∈ q.map Prod.fst ↔ opts.Name ≠ "") ∧
    (("exact", "true") ∈ q ↔ opts.Exact = true) ∧
    ("exact" ∈ q.map Prod.fst ↔ opts.Exact = true) ∧
    ("attribute" ∈ q.map Prod.fst ↔ opts.Attribute ≠ "") ∧
    ("xAntibody" ∈ q.map Prod.fst ↔ opts.XAntibody ≠ none) ∧
    (opts.XAntibody = some true → ("xAntibody", "true") ∈ q) ∧
    (opts.XAntibody = some false → ("xAntibody", "false") ∈ q) ∧
    ("level" ∈ q.map Prod.fst ↔ opts.Level ≠ "") ∧
    ("page" ∈ q.map Prod.fst ↔ opts.Page > 0) ∧
    ("pageSize" ∈ q.map Prod.fst ↔ opts.PageSize > 0) ∧
    (∀ k ∈ q.map Prod.fst,
      k ∈ (["name", "exact", "attribute", "xAntibody", "level", "page",
            "pageSize"] : List String)) := by
  have hq2 : q = buildListQuery opts := getAllDigimons_sent_query ctx opts out q hq
  subst hq2
  refine ⟨?_, ?_, ?_, ?_, ?_, ?_, ?_, ?_, ?_, ?_, ?_⟩
  · rw [mem_map_fst_buildListQuery]
    simp
  · rw [mem_buildListQuery]
    simp [Prod.ext_iff]
  · rw [mem_map_fst_buildListQuery]
    simp
  · rw [mem_map_fst_buildListQuery]
    simp
  · rw [mem_map_fst_buildListQuery]
    simp
  · intro h
    rw [mem_buildListQuery]
    simp [h]
  · intro h
    rw [mem_buildListQuery]
    simp [h]
  · rw [mem_map_fst_buildListQuery]
    simp
  · rw [mem_map_fst_buildListQuery]
    simp
  · rw [mem_map_fst_buildListQuery]
    simp
  · intro k hk
    rw [mem_map_fst_buildListQuery] at hk
    rcases hk with ⟨rfl, -⟩ | ⟨rfl, -⟩ | ⟨rfl, -⟩ | ⟨rfl, -⟩ | ⟨rfl, -⟩ |
      ⟨rfl, -⟩ | ⟨rfl, -⟩ <;> simp

/-- **C3.** `DisplaySearch` trims the "query" form value; if the trimmed
value is empty the handler responds with an HTTP 303 redirect to /digimons
and issues no upstream call; if non-empty, the one upstream call carries
options `{Name: trimmed, PageSize: 50}`, whose outbound query is exactly
`name=<trimmed>` and `pageSize=50`. -/
theorem search_trim_redirect_and_query (queryRaw : String)
    (out : HttpOutcome DigimonListResponse) :
    (goTrimSpace queryRaw = "" →
      DisplaySearch queryRaw out = ([], .redirect 303 "/digimons")) ∧
    (goTrimSpace queryRaw ≠ "" →
      (DisplaySearch queryRaw out).1 =
        [some { Name := goTrimSpace queryRaw, PageSize := 50 }] ∧
      buildListQuery { Name := goTrimSpace queryRaw, PageSize := 50 } =
        [("name", goTrimSpace queryRaw), ("pageSize", "50")]) := by
  constructor
  · intro h
    simp [DisplaySearch, h]
  · intro h
    refine ⟨by simp [DisplaySearch, h], ?_⟩
    have h50 : toString (50 : Int) = "50" := rfl
    simp [buildListQuery, h, h50]

/-- **C3 witness.** A whitespace-only query redirects without calling
upstream; `"  agumon "` yields exactly one call with the trimmed name and
page size 50. -/
theorem search_trim_redirect_and_query_witness :
    DisplaySearch " \t " (.transportError "refused") =
      ([], .redirect 303 "/digimons") ∧
    (DisplaySearch "  agumon " (.transportError "refused")).1 =
      [some { Name := "agumon", PageSize := 50 }] := by
  have h2 := ((search_trim_redirect_and_query "  agumon "
    (.transportError "refused")).2 (by decide)).1
  refine ⟨(search_trim_redirect_and_query " \t "
    (.transportError "refused")).1 (by decide), ?_⟩
  rw [h2]
  decide

/-- **C7.** The paginated listing handler always calls upstream with page
size 20 and page `parsePageParam pageStr`, which is the parsed value when
the raw parameter parses to a strictly positive integer and 0 when the
parameter is absent (""), non-numeric, or not strictly positive; the
unpaginated full-list handler always calls with page size 100. -/
theorem pagination_page_size_defaults (pageStr : String)
    (out : HttpOutcome DigimonListResponse) :
    (DisplayListDigimonsWithPagination pageStr out).1 =
      [some { Page := parsePageParam pageStr, PageSize := 20 }] ∧
    (pageStr = "" → parsePageParam pageStr = 0) ∧
    (goAtoi pageStr = none → parsePageParam pageStr = 0) ∧
    (∀ p : Int, goAtoi pageStr = some p → p ≤ 0 → parsePageParam pageStr = 0) ∧
    (∀ p : Int, goAtoi pageStr = some p → 0 < p → parsePageParam pageStr = p) ∧
    (DisplayListDigimons out).1 = [some { PageSize := 100 }] := by
  refine ⟨?_, ?_, ?_, ?_, ?_, ?_⟩
  · simp [DisplayListDigimonsWithPagination]
  · intro h
    simp [parsePageParam, h]
  · intro h
    by_cases he : pageStr = "" <;> simp [parsePageParam, he, h]
  · intro p hp hle
    have hne : pageStr ≠ "" := by
      intro h
      subst h
      rw [show goAtoi "" = none from rfl] at hp
      exact Option.noConfusion hp
    simp [parsePageParam, hne, hp, not_lt.mpr hle]
  · intro p hp hpos
    have hne : pageStr ≠ "" := by
      intro h
      subst h
      rw [show goAtoi "" = none from rfl] at hp
      exact Option.noConfusion hp
    simp [parsePageParam, hne, hp, hpos]
  · simp [DisplayListDigimons]

/-- **C7 witness.** `page=7` is taken as page 7 (size 20 recorded by the
main theorem); the full-list handler records options with page size 100. -/
theorem pagination_page_size_defaults_witness :
    parsePageParam "7" = 7 ∧
    (DisplayListDigimons (.transportError "refused")).1 =
      [some { PageSize := 100 }] := by
  have h := pagination_page_size_defaults "7" (.transportError "refused")
  exact ⟨h.2.2.2.2.1 7 (by decide) (by decide), h.2.2.2.2.2⟩

/-- **C8.** Any options value passed upstream by the advanced-search handler
has `Exact = true` iff the raw "exact" form value is "true" or "on"; every
other raw value yields `Exact = false`. -/
theorem searchAdvanced_exact_flag (queryRaw exactRaw : String)
    (out : HttpOutcome DigimonListResponse) (o : DigimonListOptions)
    (ho : some o ∈ (DisplaySearchAdvanced queryRaw exactRaw out).1) :
    o.Exact = true ↔ (exactRaw = "true" ∨ exactRaw = "on") := by
  by_cases h : goTrimSpace queryRaw = ""
  · simp [DisplaySearchAdvanced, h] at ho
  · simp [DisplaySearchAdvanced, h] at ho
    subst ho
    simp

/-- **C8 witness.** With raw value "on" the one recorded call has
`Exact = true`. -/
theorem searchAdvanced_exact_flag_witness :
    ({ Name := "agumon", Exact := true, PageSize := 50 } :
      DigimonListOptions).Exact = true ↔
      (("on" : String) = "true" ∨ ("on" : String) = "on") :=
  searchAdvanced_exact_flag "agumon" "on" (.transportError "refused")
    { Name := "agumon", Exact := true, PageSize := 50 } (by decide)

/-- **C1 witness.** Concrete instantiation: options with a name, an
explicitly-false X-antibody pointer and page size 50 produce exactly the
keys "name", "xAntibody" (value "false") and "pageSize". -/
theorem getAllDigimons_query_param_presence_witness :
    ("name" ∈ (buildListQuery
        { Name := "agu", XAntibody := some false, PageSize := 50 }).map Prod.fst
      ↔ ("agu" : String) ≠ "") ∧
    (("xAntibody", "false") ∈ buildListQuery
        { Name := "agu", XAntibody := some false, PageSize := 50 }) := by
  have h := getAllDigimons_query_param_presence GoContext.background
    { Name := "agu", XAntibody := some false, PageSize := 50 }
    (.transportError "refused")
    (buildListQuery { Name := "agu", XAntibody := some false, PageSize := 50 })
    (by decide)
  exact ⟨h.1, h.2.2.2.2.2.2.1 (by decide)⟩

/-- The local loop of the advanced filter retains everything when no
criterion is supplied and nothing otherwise. -/
lemma foldl_append_singleton {α : Type} (l acc : List α) :
    l.foldl (fun a d => a ++ [d]) acc = acc ++ l := by
  induction l generalizing acc with
  | nil => simp
  | cons x xs ih => simp [List.foldl_cons, ih]

/-- Folding a function that ignores its second argument leaves the
accumulator unchanged. -/
lemma foldl_keep {α β : Type} (l : List β) (acc : α) :
    l.foldl (fun a _ => a) acc = acc := by
  induction l with
  | nil => rfl
  | cons x xs ih => simp [List.foldl_cons, ih]

/-- Closed form of `filterAdvancedLoop`. -/
lemma filterAdvancedLoop_eq (levels attributes : List String) (xab : String)
    (content : List DigimonSummary) :
    filterAdvancedLoop levels attributes xab content =
      if levels = [] ∧ attributes = [] ∧ xab = "" then content else [] := by
  unfold filterAdvancedLoop
  by_cases h : levels = [] ∧ attributes = [] ∧ xab = ""
  · simp only [h, if_pos, and_self, if_true]
    simpa using foldl_append_singleton content []
  · simp only [h, if_false, if_neg h]
    exact foldl_keep content []

/-- **C2.** On every advanced-filter request (with a parsable form) the
handler fetches with options `{PageSize: 500}`, and when the upstream
response decodes, the rendered list is the full fetched list when none of
`levels`, `attributes`, `xantibody` is supplied, and empty whenever at
least one of them is supplied. -/
theorem filterAdvanced_stub_behavior (levels attributes : List String)
    (xab : String) (out : HttpOutcome DigimonListResponse) :
    (DisplayFilterAdvanced true levels attributes xab out).1 =
      [some { PageSize := 500 }] ∧
    (∀ d : DigimonListResponse, out = .response 200 (.ok d) →
      (DisplayFilterAdvanced true levels attributes xab out).2 =
        .render "filter_digimons_advanced"
          { Digimons :=
              if levels = [] ∧ attributes = [] ∧ xab = "" then d.Content else []
            Levels := levels, Attributes := attributes
            XAntibody := (xab == "true" || xab == "on")
            Total := (if levels = [] ∧ attributes = [] ∧ xab = "" then
              d.Content else []).length }) := by
  constructor
  · simp [DisplayFilterAdvanced]
  · intro d hd
    subst hd
    simp [DisplayFilterAdvanced, GetAllDigimons, filterAdvancedLoop_eq]

/-- **C2 witness.** With one level criterion supplied the rendered list is
empty even though the fetch returned a record. -/
theorem filterAdvanced_stub_behavior_witness :
    (DisplayFilterAdvanced true ["Rookie"] [] ""
        (.response 200 (.ok demoList))).2 =
      .render "filter_digimons_advanced"
        { Digimons := [], Levels := ["Rookie"], Attributes := []
          XAntibody := false, Total := 0 } := by
  have h := (filterAdvanced_stub_behavior ["Rookie"] [] ""
    (.response 200 (.ok demoList))).2 demoList rfl
  rw [h]
  decide

/-- **C4 counterexample.** The claim says only a positive-integer id
proceeds to the upstream fetch, but `strconv.Atoi` accepts `-1` and the
handler performs the fetch and renders: the recorded call list is `[-1]`,
not `[]`, and the response is a render, not a 400. -/
theorem displayDigimonDetails_nonpositive_id_proceeds :
    (DisplayDigimonDetails "-1" (.response 200 (.ok demoDigimon))).1 =
      [(-1 : Int)] ∧
    (DisplayDigimonDetails "-1" (.response 200 (.ok demoDigimon))).2 =
      .render "digimon_details" (some demoDigimon) := by
  decide

/-- **C4 (amended).** The "id" query parameter must be an integer: when it
is missing ("") or non-numeric the handler responds 400 with no upstream
call; every id that `strconv.Atoi` accepts — positive or not — proceeds to
the upstream fetch. -/
theorem displayDigimonDetails_id_validation (idStr : String)
    (out : HttpOutcome Digimon) :
    (idStr = "" →
      DisplayDigimonDetails idStr out = ([], .httpError 400 "ID manquant")) ∧
    (idStr ≠ "" → goAtoi idStr = none →
      DisplayDigimonDetails idStr out = ([], .httpError 400 "ID invalide")) ∧
    (∀ id : Int, goAtoi idStr = some id →
      (DisplayDigimonDetails idStr out).1 = [id]) := by
  refine ⟨?_, ?_, ?_⟩
  · intro h
    simp [DisplayDigimonDetails, h]
  · intro h hn
    simp [DisplayDigimonDetails, h, hn]
  · intro id hid
    have hne : idStr ≠ "" := by
      intro h
      subst h
      rw [show goAtoi "" = none from rfl] at hid
      exact Option.noConfusion hid
    simp [DisplayDigimonDetails, hne, hid]

/-- **C4 witness.** A non-numeric id gives a local 400 without an upstream
call; a numeric id is fetched. -/
theorem displayDigimonDetails_id_validation_witness :
    DisplayDigimonDetails "abc" (.transportError "refused") =
      ([], .httpError 400 "ID invalide") ∧
    (DisplayDigimonDetails "5" (.transportError "refused")).1 = [(5 : Int)] := by
  exact ⟨(displayDigimonDetails_id_validation "abc"
      (.transportError "refused")).2.1 (by decide) (by decide),
    (displayDigimonDetails_id_validation "5"
      (.transportError "refused")).2.2 5 (by decide)⟩

/-- **C6.** Error contract of every Transport Client fetch (`fetchDigimon`,
`fetchAttribute`, `fetchLevel`, `GetAllDigimons`): a response with status
other than 200 yields `(nil, that status, "unexpected code" error)`; a
JSON-decode failure yields `(nil, 500, decode error)`; a transport-level
failure yields `(nil, 500, transport error)`; and the result is non-nil iff
the outcome is a status-200 response that decodes successfully. -/
theorem fetch_error_contract (ctx : GoContext) (u1 u2 u3 : String)
    (opts : Option DigimonListOptions) :
    (∀ (s : Nat) (b : DecodeResult Digimon), s ≠ 200 →
      fetchDigimon ctx u1 (.response s b) =
        (none, s, some ("code HTTP inattendu: " ++ toString s))) ∧
    (∀ m : String, fetchDigimon ctx u1 (.response 200 (.fail m)) =
      (none, 500, some ("erreur décodage JSON: " ++ m))) ∧
    (∀ m : String, fetchDigimon ctx u1 (.transportError m) =
      (none, 500, some ("erreur requête HTTP: " ++ m))) ∧
    (∀ out : HttpOutcome Digimon,
      (fetchDigimon ctx u1 out).1.isSome = true ↔
        ∃ v, out = .response 200 (.ok v)) ∧
    (∀ (s : Nat) (b : DecodeResult Attribute), s ≠ 200 →
      fetchAttribute ctx u2 (.response s b) =
        (none, s, some ("code HTTP inattendu: " ++ toString s))) ∧
    (∀ m : String, fetchAttribute ctx u2 (.response 200 (.fail m)) =
      (none, 500, some ("erreur décodage JSON: " ++ m))) ∧
    (∀ m : String, fetchAttribute ctx u2 (.transportError m) =
      (none, 500, some ("erreur requête HTTP: " ++ m))) ∧
    (∀ out : HttpOutcome Attribute,
      (fetchAttribute ctx u2 out).1.isSome = true ↔
        ∃ v, out = .response 200 (.ok v)) ∧
    (∀ (s : Nat) (b : DecodeResult Level), s ≠ 200 →
      fetchLevel ctx u3 (.response s b) =
        (none, s, some ("code HTTP inattendu: " ++ toString s))) ∧
    (∀ m : String, fetchLevel ctx u3 (.response 200 (.fail m)) =
      (none, 500, some ("erreur décodage JSON: " ++ m))) ∧
    (∀ m : String, fetchLevel ctx u3 (.transportError m) =
      (none, 500, some ("erreur requête HTTP: " ++ m))) ∧
    (∀ out : HttpOutcome Level,
      (fetchLevel ctx u3 out).1.isSome = true ↔
        ∃ v, out = .response 200 (.ok v)) ∧
    (∀ (s : Nat) (b : DecodeResult DigimonListResponse), s ≠ 200 →
      (GetAllDigimons ctx opts (.response s b)).2 =
        (none, s, some ("code HTTP inattendu: " ++ toString s))) ∧
    (∀ m : String, (GetAllDigimons ctx opts (.response 200 (.fail m))).2 =
      (none, 500, some ("erreur décodage JSON: " ++ m))) ∧
    (∀ m : String, (GetAllDigimons ctx opts (.transportError m)).2 =
      (none, 500, some ("erreur requête HTTP: " ++ m))) ∧
    (∀ out : HttpOutcome DigimonListResponse,
      (GetAllDigimons ctx opts out).2.1.isSome = true ↔
        ∃ v, out = .response 200 (.ok v)) := by
  refine ⟨?_, ?_, ?_, ?_, ?_, ?_, ?_, ?_, ?_, ?_, ?_, ?_, ?_, ?_, ?_, ?_⟩
  · intro s b hs
    simp [fetchDigimon, hs]
  · intro m
    rfl
  · intro m
    rfl
  · intro out
    cases out with
    | newRequestError m => simp [fetchDigimon]
    | transportError m => simp [fetchDigimon]
    | response s b =>
      by_cases hs : s = 200
      · subst hs
        cases b <;> simp [fetchDigimon]
      · simp [fetchDigimon, hs]
  · intro s b hs
    simp [fetchAttribute, hs]
  · intro m
    rfl
  · intro m
    rfl
  · intro out
    cases out with
    | newRequestError m => simp [fetchAttribute]
    | transportError m => simp [fetchAttribute]
    | response s b =>
      by_cases hs : s = 200
      · subst hs
        cases b <;> simp [fetchAttribute]
      · simp [fetchAttribute, hs]
  · intro s b hs
    simp [fetchLevel, hs]
  · intro m
    rfl
  · intro m
    rfl
  · intro out
    cases out with
    | newRequestError m => simp [fetchLevel]
    | transportError m => simp [fetchLevel]
    | response s b =>
      by_cases hs : s = 200
      · subst hs
        cases b <;> simp [fetchLevel]
      · simp [fetchLevel, hs]
  · intro s b hs
    simp [GetAllDigimons, hs]
  · intro m
    rfl
  · intro m
    rfl
  · intro out
    cases out with
    | newRequestError m => simp [GetAllDigimons]
    | transportError m => simp [GetAllDigimons]
    | response s b =>
      by_cases hs : s = 200
      · subst hs
        cases b <;> simp [GetAllDigimons]
      · simp [GetAllDigimons, hs]

/-- **C6 witness.** Concrete instances: a 404 response, a transport failure
and a decode failure produce the documented triples. -/
theorem fetch_error_contract_witness :
    fetchDigimon GoContext.background "u" (.response 404 (.fail "body")) =
      (none, 404, some ("code HTTP inattendu: " ++ toString (404 : Nat))) ∧
    fetchAttribute GoContext.background "u" (.transportError "refused") =
      (none, 500, some ("erreur requête HTTP: " ++ "refused")) ∧
    fetchLevel GoContext.background "u" (.response 200 (.fail "bad")) =
      (none, 500, some ("erreur décodage JSON: " ++ "bad")) := by
  have h := fetch_error_contract GoContext.background "u" "u" "u" none
  exact ⟨h.1 404 (.fail "body") (by decide), h.2.2.2.2.2.2.1 "refused",
    h.2.2.2.2.2.2.2.2.2.1 "bad"⟩

/-- **C9.** Invariant of every service operation (the fetch helpers cover
`GetDigimonByID/Name`, `GetAttributeByID/Name`, `GetLevelByID/Name`, which
delegate to them with specific URLs): the error is nil iff the status is
200, and the result pointer is non-nil iff the error is nil.  Consequently
no handler ever hits the nil dereference in its `err.Error()` /
result-field accesses: no handler response is `panicNilDeref`. -/
theorem service_result_invariant_no_nil_deref :
    (∀ (ctx : GoContext) (u : String) (out : HttpOutcome Digimon),
      ((fetchDigimon ctx u out).2.2 = none ↔ (fetchDigimon ctx u out).2.1 = 200) ∧
      ((fetchDigimon ctx u out).1.isSome = true ↔
        (fetchDigimon ctx u out).2.2 = none)) ∧
    (∀ (ctx : GoContext) (u : String) (out : HttpOutcome Attribute),
      ((fetchAttribute ctx u out).2.2 = none ↔
        (fetchAttribute ctx u out).2.1 = 200) ∧
      ((fetchAttribute ctx u out).1.isSome = true ↔
        (fetchAttribute ctx u out).2.2 = none)) ∧
    (∀ (ctx : GoContext) (u : String) (out : HttpOutcome Level),
      ((fetchLevel ctx u out).2.2 = none ↔ (fetchLevel ctx u out).2.1 = 200) ∧
      ((fetchLevel ctx u out).1.isSome = true ↔
        (fetchLevel ctx u out).2.2 = none)) ∧
    (∀ (ctx : GoContext) (opts : Option DigimonListOptions)
      (out : HttpOutcome DigimonListResponse),
      ((GetAllDigimons ctx opts out).2.2.2 = none ↔
        (GetAllDigimons ctx opts out).2.2.1 = 200) ∧
      ((GetAllDigimons ctx opts out).2.1.isSome = true ↔
        (GetAllDigimons ctx opts out).2.2.2 = none)) ∧
    (∀ out, (DisplayListDigimons out).2 ≠ .panicNilDeref) ∧
    (∀ pageStr out,
      (DisplayListDigimonsWithPagination pageStr out).2 ≠ .panicNilDeref) ∧
    (∀ q out, (DisplaySearch q out).2 ≠ .panicNilDeref) ∧
    (∀ q e out, (DisplaySearchAdvanced q e out).2 ≠ .panicNilDeref) ∧
    (∀ pf l a x out, (DisplayFilter pf l a x out).2 ≠ .panicNilDeref) ∧
    (∀ pf ls attrs x out,
      (DisplayFilterAdvanced pf ls attrs x out).2 ≠ .panicNilDeref) ∧
    (∀ idStr out, (DisplayDigimonDetails idStr out).2 ≠ .panicNilDeref) ∧
    (∀ n out, (DisplayDigimonDetailsByName n out).2 ≠ .panicNilDeref) ∧
    (∀ n out, (DisplayDigimonsByAttribute n out).2 ≠ .panicNilDeref) ∧
    (∀ n out, (DisplayDigimonsByLevel n out).2 ≠ .panicNilDeref) := by
  refine ⟨?_, ?_, ?_, ?_, ?_, ?_, ?_, ?_, ?_, ?_, ?_, ?_, ?_, ?_⟩
  · intro ctx u out
    cases out with
    | newRequestError m => simp [fetchDigimon]
    | transportError m => simp [fetchDigimon]
    | response s b =>
      by_cases hs : s = 200
      · subst hs
        cases b <;> simp [fetchDigimon]
      · simp [fetchDigimon, hs]
  · intro ctx u out
    cases out with
    | newRequestError m => simp [fetchAttribute]
    | transportError m => simp [fetchAttribute]
    | response s b =>
      by_cases hs : s = 200
      · subst hs
        cases b <;> simp [fetchAttribute]
      · simp [fetchAttribute, hs]
  · intro ctx u out
    cases out with
    | newRequestError m => simp [fetchLevel]
    | transportError m => simp [fetchLevel]
    | response s b =>
      by_cases hs : s = 200
      · subst hs
        cases b <;> simp [fetchLevel]
      · simp [fetchLevel, hs]
  · intro ctx opts out
    cases out with
    | newRequestError m => simp [GetAllDigimons]
    | transportError m => simp [GetAllDigimons]
    | response s b =>
      by_cases hs : s = 200
      · subst hs
        cases b <;> simp [GetAllDigimons]
      · simp [GetAllDigimons, hs]
  · intro out
    cases out with
    | newRequestError m => simp [DisplayListDigimons, GetAllDigimons]
    | transportError m => simp [DisplayListDigimons, GetAllDigimons]
    | response s b =>
      by_cases hs : s = 200
      · subst hs
        cases b <;> simp [DisplayListDigimons, GetAllDigimons]
      · simp [DisplayListDigimons, GetAllDigimons, hs]
  · intro pageStr out
    cases out with
    | newRequestError m =>
      simp [DisplayListDigimonsWithPagination, GetAllDigimons]
    | transportError m =>
      simp [DisplayListDigimonsWithPagination, GetAllDigimons]
    | response s b =>
      by_cases hs : s = 200
      · subst hs
        cases b <;> simp [DisplayListDigimonsWithPagination, GetAllDigimons]
      · simp [DisplayListDigimonsWithPagination, GetAllDigimons, hs]
  · intro q out
    by_cases hq : goTrimSpace q = ""
    · simp [DisplaySearch, hq]
    · cases out with
      | newRequestError m => simp [DisplaySearch, hq, GetAllDigimons]
      | transportError m => simp [DisplaySearch, hq, GetAllDigimons]
      | response s b =>
        by_cases hs : s = 200
        · subst hs
          cases b <;> simp [DisplaySearch, hq, GetAllDigimons]
        · simp [DisplaySearch, hq, GetAllDigimons, hs]
  · intro q e out
    by_cases hq : goTrimSpace q = ""
    · simp [DisplaySearchAdvanced, hq]
    · cases out with
      | newRequestError m => simp [DisplaySearchAdvanced, hq, GetAllDigimons]
      | transportError m => simp [DisplaySearchAdvanced, hq, GetAllDigimons]
      | response s b =>
        by_cases hs : s = 200
        · subst hs
          cases b <;> simp [DisplaySearchAdvanced, hq, GetAllDigimons]
        · simp [DisplaySearchAdvanced, hq, GetAllDigimons, hs]
  · intro pf l a x out
    cases pf with
    | false => simp [DisplayFilter]
    | true =>
      cases out with
      | newRequestError m => simp [DisplayFilter, GetAllDigimons]
      | transportError m => simp [DisplayFilter, GetAllDigimons]
      | response s b =>
        by_cases hs : s = 200
        · subst hs
          cases b <;> simp [DisplayFilter, GetAllDigimons]
        · simp [DisplayFilter, GetAllDigimons, hs]
  · intro pf ls attrs x out
    cases pf with
    | false => simp [DisplayFilterAdvanced]
    | true =>
      cases out with
      | newRequestError m => simp [DisplayFilterAdvanced, GetAllDigimons]
      | transportError m => simp [DisplayFilterAdvanced, GetAllDigimons]
      | response s b =>
        by_cases hs : s = 200
        · subst hs
          cases b <;> simp [DisplayFilterAdvanced, GetAllDigimons]
        · simp [DisplayFilterAdvanced, GetAllDigimons, hs]
  · intro idStr out
    by_cases h0 : idStr = ""
    · simp [DisplayDigimonDetails, h0]
    · cases hA : goAtoi idStr with
      | none => simp [DisplayDigimonDetails, h0, hA]
      | some id =>
        cases out with
        | newRequestError m =>
          simp [DisplayDigimonDetails, h0, hA, GetDigimonByID, fetchDigimon]
        | transportError m =>
          simp [DisplayDigimonDetails, h0, hA, GetDigimonByID, fetchDigimon]
        | response s b =>
          by_cases hs : s = 200
          · subst hs
            cases b <;>
              simp [DisplayDigimonDetails, h0, hA, GetDigimonByID, fetchDigimon]
          · by_cases h404 : s = 404 <;>
              simp [DisplayDigimonDetails, h0, hA, GetDigimonByID, fetchDigimon,
                hs, h404]
  · intro n out
    by_cases h0 : n = ""
    · simp [DisplayDigimonDetailsByName, h0]
    · cases out with
      | newRequestError m =>
        simp [DisplayDigimonDetailsByName, h0, GetDigimonByName, fetchDigimon]
      | transportError m =>
        simp [DisplayDigimonDetailsByName, h0, GetDigimonByName, fetchDigimon]
      | response s b =>
        by_cases hs : s = 200
        · subst hs
          cases b <;>
            simp [DisplayDigimonDetailsByName, h0, GetDigimonByName, fetchDigimon]
        · by_cases h404 : s = 404 <;>
            simp [DisplayDigimonDetailsByName, h0, GetDigimonByName, fetchDigimon,
              hs, h404]
  · intro n out
    by_cases h0 : n = ""
    · simp [DisplayDigimonsByAttribute, h0]
    · cases out with
      | newRequestError m =>
        simp [DisplayDigimonsByAttribute, h0, GetAttributeByName, fetchAttribute]
      | transportError m =>
        simp [DisplayDigimonsByAttribute, h0, GetAttributeByName, fetchAttribute]
      | response s b =>
        by_cases hs : s = 200
        · subst hs
          cases b <;>
            simp [DisplayDigimonsByAttribute, h0, GetAttributeByName,
              fetchAttribute]
        · simp [DisplayDigimonsByAttribute, h0, GetAttributeByName,
            fetchAttribute, hs]
  · intro n out
    by_cases h0 : n = ""
    · simp [DisplayDigimonsByLevel, h0]
    · cases out with
      | newRequestError m =>
        simp [DisplayDigimonsByLevel, h0, GetLevelByName, fetchLevel]
      | transportError m =>
        simp [DisplayDigimonsByLevel, h0, GetLevelByName, fetchLevel]
      | response s b =>
        by_cases hs : s = 200
        · subst hs
          cases b <;> simp [DisplayDigimonsByLevel, h0, GetLevelByName, fetchLevel]
        · simp [DisplayDigimonsByLevel, h0, GetLevelByName, fetchLevel, hs]

/-- **C9 witness.** Concrete instances of the invariant and of the
no-panic guarantee. -/
theorem service_result_invariant_no_nil_deref_witness :
    ((fetchDigimon GoContext.background "u" (.transportError "t")).2.2 = none ↔
      (fetchDigimon GoContext.background "u" (.transportError "t")).2.1 = 200) ∧
    (DisplayListDigimons (.transportError "t")).2 ≠ .panicNilDeref := by
  have h := service_result_invariant_no_nil_deref
  exact ⟨(h.1 GoContext.background "u" (.transportError "t")).1,
    h.2.2.2.2.1 (.transportError "t")⟩

/-- **C5.** The status the Transport Client reports is `reportedStatus` of
the outcome (first four conjuncts), and whenever it is non-200, every
handler answers `http.Error` with exactly that status; in the lookup-by-id
and lookup-by-name handlers an upstream 404 yields a local 404 with the
"Digimon non trouvé" message, and any other non-200 yields the generic
message embedding the status code and the upstream error text. -/
theorem handlers_forward_upstream_status :
    (∀ (ctx : GoContext) (u : String) (out : HttpOutcome Digimon),
      (fetchDigimon ctx u out).2.1 = reportedStatus out) ∧
    (∀ (ctx : GoContext) (u : String) (out : HttpOutcome Attribute),
      (fetchAttribute ctx u out).2.1 = reportedStatus out) ∧
    (∀ (ctx : GoContext) (u : String) (out : HttpOutcome Level),
      (fetchLevel ctx u out).2.1 = reportedStatus out) ∧
    (∀ (ctx : GoContext) (opts : Option DigimonListOptions)
      (out : HttpOutcome DigimonListResponse),
      (GetAllDigimons ctx opts out).2.2.1 = reportedStatus out) ∧
    (∀ out, reportedStatus out ≠ 200 →
      ∃ m, (DisplayListDigimons out).2 = .httpError (reportedStatus out) m) ∧
    (∀ pageStr out, reportedStatus out ≠ 200 →
      ∃ m, (DisplayListDigimonsWithPagination pageStr out).2 =
        .httpError (reportedStatus out) m) ∧
    (∀ q out, goTrimSpace q ≠ "" → reportedStatus out ≠ 200 →
      ∃ m, (DisplaySearch q out).2 = .httpError (reportedStatus out) m) ∧
    (∀ q e out, goTrimSpace q ≠ "" → reportedStatus out ≠ 200 →
      ∃ m, (DisplaySearchAdvanced q e out).2 =
        .httpError (reportedStatus out) m) ∧
    (∀ l a x out, reportedStatus out ≠ 200 →
      ∃ m, (DisplayFilter true l a x out).2 = .httpError (reportedStatus out) m) ∧
    (∀ ls attrs x out, reportedStatus out ≠ 200 →
      ∃ m, (DisplayFilterAdvanced true ls attrs x out).2 =
        .httpError (reportedStatus out) m) ∧
    (∀ (idStr : String) (id : Int) out, goAtoi idStr = some id →
      reportedStatus out ≠ 200 →
      ∃ m, (DisplayDigimonDetails idStr out).2 =
        .httpError (reportedStatus out) m) ∧
    (∀ (idStr : String) (id : Int) (b : DecodeResult Digimon),
      goAtoi idStr = some id →
      (DisplayDigimonDetails idStr (.response 404 b)).2 =
        .httpError 404 "Digimon non trouvé") ∧
    (∀ (idStr : String) (id : Int) (s : Nat) (b : DecodeResult Digimon),
      goAtoi idStr = some id → s ≠ 200 → s ≠ 404 →
      (DisplayDigimonDetails idStr (.response s b)).2 =
        .httpError s ("Erreur service - code: " ++ toString s ++
          "\nmessage: " ++ ("code HTTP inattendu: " ++ toString s))) ∧
    (∀ (idStr : String) (id : Int) (m : String), goAtoi idStr = some id →
      (DisplayDigimonDetails idStr (.transportError m)).2 =
        .httpError 500 ("Erreur service - code: " ++ toString (500 : Nat) ++
          "\nmessage: " ++ ("erreur requête HTTP: " ++ m))) ∧
    (∀ (n : String) out, n ≠ "" → reportedStatus out ≠ 200 →
      ∃ m, (DisplayDigimonDetailsByName n out).2 =
        .httpError (reportedStatus out) m) ∧
    (∀ (n : String) (b : DecodeResult Digimon), n ≠ "" →
      (DisplayDigimonDetailsByName n (.response 404 b)).2 =
        .httpError 404 "Digimon non trouvé") ∧
    (∀ (n : String) (s : Nat) (b : DecodeResult Digimon), n ≠ "" →
      s ≠ 200 → s ≠ 404 →
      (DisplayDigimonDetailsByName n (.response s b)).2 =
        .httpError s ("Erreur service - code: " ++ toString s ++
          "\nmessage: " ++ ("code HTTP inattendu: " ++ toString s))) ∧
    (∀ (n : String) (m : String), n ≠ "" →
      (DisplayDigimonDetailsByName n (.transportError m)).2 =
        .httpError 500 ("Erreur service - code: " ++ toString (500 : Nat) ++
          "\nmessage: " ++ ("erreur requête HTTP: " ++ m))) ∧
    (∀ (n : String) out, n ≠ "" → reportedStatus out ≠ 200 →
      ∃ m, (DisplayDigimonsByAttribute n out).2 =
        .httpError (reportedStatus out) m) ∧
    (∀ (n : String) out, n ≠ "" → reportedStatus out ≠ 200 →
      ∃ m, (DisplayDigimonsByLevel n out).2 =
        .httpError (reportedStatus out) m) := by
  refine ⟨?_, ?_, ?_, ?_, ?_, ?_, ?_, ?_, ?_, ?_, ?_, ?_, ?_, ?_, ?_, ?_, ?_,
    ?_, ?_, ?_⟩
  · intro ctx u out
    cases out with
    | newRequestError m => rfl
    | transportError m => rfl
    | response s b =>
      by_cases hs : s = 200
      · subst hs
        cases b <;> simp [fetchDigimon, reportedStatus]
      · simp [fetchDigimon, reportedStatus, hs]
  · intro ctx u out
    cases out with
    | newRequestError m => rfl
    | transportError m => rfl
    | response s b =>
      by_cases hs : s = 200
      · subst hs
        cases b <;> simp [fetchAttribute, reportedStatus]
      · simp [fetchAttribute, reportedStatus, hs]
  · intro ctx u out
    cases out with
    | newRequestError m => rfl
    | transportError m => rfl
    | response s b =>
      by_cases hs : s = 200
      · subst hs
        cases b <;> simp [fetchLevel, reportedStatus]
      · simp [fetchLevel, reportedStatus, hs]
  · intro ctx opts out
    cases out with
    | newRequestError m => rfl
    | transportError m => rfl
    | response s b =>
      by_cases hs : s = 200
      · subst hs
        cases b <;> simp [GetAllDigimons, reportedStatus]
      · simp [GetAllDigimons, reportedStatus, hs]
  · intro out h
    cases out with
    | newRequestError m => simp [DisplayListDigimons, GetAllDigimons, reportedStatus]
    | transportError m => simp [DisplayListDigimons, GetAllDigimons, reportedStatus]
    | response s b =>
      by_cases hs : s = 200
      · subst hs
        cases b with
        | ok v => simp [reportedStatus] at h
        | fail m => simp [DisplayListDigimons, GetAllDigimons, reportedStatus]
      · simp [DisplayListDigimons, GetAllDigimons, reportedStatus, hs]
  · intro pageStr out h
    cases out with
    | newRequestError m =>
      simp [DisplayListDigimonsWithPagination, GetAllDigimons, reportedStatus]
    | transportError m =>
      simp [DisplayListDigimonsWithPagination, GetAllDigimons, reportedStatus]
    | response s b =>
      by_cases hs : s = 200
      · subst hs
        cases b with
        | ok v => simp [reportedStatus] at h
        | fail m =>
          simp [DisplayListDigimonsWithPagination, GetAllDigimons, reportedStatus]
      · simp [DisplayListDigimonsWithPagination, GetAllDigimons, reportedStatus,
          hs]
  · intro q out hq h
    cases out with
    | newRequestError m =>
      simp [DisplaySearch, hq, GetAllDigimons, reportedStatus]
    | transportError m =>
      simp [DisplaySearch, hq, GetAllDigimons, reportedStatus]
    | response s b =>
      by_cases hs : s = 200
      · subst hs
        cases b with
        | ok v => simp [reportedStatus] at h
        | fail m => simp [DisplaySearch, hq, GetAllDigimons, reportedStatus]
      · simp [DisplaySearch, hq, GetAllDigimons, reportedStatus, hs]
  · intro q e out hq h
    cases out with
    | newRequestError m =>
      simp [DisplaySearchAdvanced, hq, GetAllDigimons, reportedStatus]
    | transportError m =>
      simp [DisplaySearchAdvanced, hq, GetAllDigimons, reportedStatus]
    | response s b =>
      by_cases hs : s = 200
      · subst hs
        cases b with
        | ok v => simp [reportedStatus] at h
        | fail m =>
          simp [DisplaySearchAdvanced, hq, GetAllDigimons, reportedStatus]
      · simp [DisplaySearchAdvanced, hq, GetAllDigimons, reportedStatus, hs]
  · intro l a x out h
    cases out with
    | newRequestError m => simp [DisplayFilter, GetAllDigimons, reportedStatus]
    | transportError m => simp [DisplayFilter, GetAllDigimons, reportedStatus]
    | response s b =>
      by_cases hs : s = 200
      · subst hs
        cases b with
        | ok v => simp [reportedStatus] at h
        | fail m => simp [DisplayFilter, GetAllDigimons, reportedStatus]
      · simp [DisplayFilter, GetAllDigimons, reportedStatus, hs]
  · intro ls attrs x out h
    cases out with
    | newRequestError m =>
      simp [DisplayFilterAdvanced, GetAllDigimons, reportedStatus]
    | transportError m =>
      simp [DisplayFilterAdvanced, GetAllDigimons, reportedStatus]
    | response s b =>
      by_cases hs : s = 200
      · subst hs
        cases b with
        | ok v => simp [reportedStatus] at h
        | fail m => simp [DisplayFilterAdvanced, GetAllDigimons, reportedStatus]
      · simp [DisplayFilterAdvanced, GetAllDigimons, reportedStatus, hs]
  · intro idStr id out hid h
    have hne : idStr ≠ "" := by
      intro h0
      subst h0
      rw [show goAtoi "" = none from rfl] at hid
      exact Option.noConfusion hid
    cases out with
    | newRequestError m =>
      simp [DisplayDigimonDetails, hne, hid, GetDigimonByID, fetchDigimon,
        reportedStatus]
    | transportError m =>
      simp [DisplayDigimonDetails, hne, hid, GetDigimonByID, fetchDigimon,
        reportedStatus]
    | response s b =>
      by_cases hs : s = 200
      · subst hs
        cases b with
        | ok v => simp [reportedStatus] at h
        | fail m =>
          simp [DisplayDigimonDetails, hne, hid, GetDigimonByID, fetchDigimon,
            reportedStatus]
      · by_cases h404 : s = 404
        · subst h404
          simp [DisplayDigimonDetails, hne, hid, GetDigimonByID, fetchDigimon,
            reportedStatus]
        · simp [DisplayDigimonDetails, hne, hid, GetDigimonByID, fetchDigimon,
            reportedStatus, hs, h404]
  · intro idStr id b hid
    have hne : idStr ≠ "" := by
      intro h0
      subst h0
      rw [show goAtoi "" = none from rfl] at hid
      exact Option.noConfusion hid
    simp [DisplayDigimonDetails, hne, hid, GetDigimonByID, fetchDigimon]
  · intro idStr id s b hid hs h404
    have hne : idStr ≠ "" := by
      intro h0
      subst h0
      rw [show goAtoi "" = none from rfl] at hid
      exact Option.noConfusion hid
    simp [DisplayDigimonDetails, hne, hid, GetDigimonByID, fetchDigimon, hs, h404]
  · intro idStr id m hid
    have hne : idStr ≠ "" := by
      intro h0
      subst h0
      rw [show goAtoi "" = none from rfl] at hid
      exact Option.noConfusion hid
    simp [DisplayDigimonDetails, hne, hid, GetDigimonByID, fetchDigimon]
  · intro n out hn h
    cases out with
    | newRequestError m =>
      simp [DisplayDigimonDetailsByName, hn, GetDigimonByName, fetchDigimon,
        reportedStatus]
    | transportError m =>
      simp [DisplayDigimonDetailsByName, hn, GetDigimonByName, fetchDigimon,
        reportedStatus]
    | response s b =>
      by_cases hs : s = 200
      · subst hs
        cases b with
        | ok v => simp [reportedStatus] at h
        | fail m =>
          simp [DisplayDigimonDetailsByName, hn, GetDigimonByName, fetchDigimon,
            reportedStatus]
      · by_cases h404 : s = 404
        · subst h404
          simp [DisplayDigimonDetailsByName, hn, GetDigimonByName, fetchDigimon,
            reportedStatus]
        · simp [DisplayDigimonDetailsByName, hn, GetDigimonByName, fetchDigimon,
            reportedStatus, hs, h404]
  · intro n b hn
    simp [DisplayDigimonDetailsByName, hn, GetDigimonByName, fetchDigimon]
  · intro n s b hn hs h404
    simp [DisplayDigimonDetailsByName, hn, GetDigimonByName, fetchDigimon, hs,
      h404]
  · intro n m hn
    simp [DisplayDigimonDetailsByName, hn, GetDigimonByName, fetchDigimon]
  · intro n out hn h
    cases out with
    | newRequestError m =>
      simp [DisplayDigimonsByAttribute, hn, GetAttributeByName, fetchAttribute,
        reportedStatus]
    | transportError m =>
      simp [DisplayDigimonsByAttribute, hn, GetAttributeByName, fetchAttribute,
        reportedStatus]
    | response s b =>
      by_cases hs : s = 200
      · subst hs
        cases b with
        | ok v => simp [reportedStatus] at h
        | fail m =>
          simp [DisplayDigimonsByAttribute, hn, GetAttributeByName,
            fetchAttribute, reportedStatus]
      · simp [DisplayDigimonsByAttribute, hn, GetAttributeByName, fetchAttribute,
          reportedStatus, hs]
  · intro n out hn h
    cases out with
    | newRequestError m =>
      simp [DisplayDigimonsByLevel, hn, GetLevelByName, fetchLevel,
        reportedStatus]
    | transportError m =>
      simp [DisplayDigimonsByLevel, hn, GetLevelByName, fetchLevel,
        reportedStatus]
    | response s b =>
      by_cases hs : s = 200
      · subst hs
        cases b with
        | ok v => simp [reportedStatus] at h
        | fail m =>
          simp [DisplayDigimonsByLevel, hn, GetLevelByName, fetchLevel,
            reportedStatus]
      · simp [DisplayDigimonsByLevel, hn, GetLevelByName, fetchLevel,
          reportedStatus, hs]

/-- **C5 witness.** A transport failure makes the list handler answer with
the reported status 500; an upstream 404 on a lookup-by-id yields the local
404 "Digimon non trouvé". -/
theorem handlers_forward_upstream_status_witness :
    (∃ m, (DisplayListDigimons
        (.transportError "t" : HttpOutcome DigimonListResponse)).2 =
      .httpError (reportedStatus
        (.transportError "t" : HttpOutcome DigimonListResponse)) m) ∧
    (DisplayDigimonDetails "5" (.response 404 (.fail "nf"))).2 =
      .httpError 404 "Digimon non trouvé" := by
  have h := handlers_forward_upstream_status
  exact ⟨h.2.2.2.2.1 (.transportError "t") (by decide),
    h.2.2.2.2.2.2.2.2.2.2.2.1 "5" 5 (.fail "nf") (by decide)⟩
